import Mathlib

/-!
# Barbershop reservation system: verification of the spec against the code

Shallow embedding of the backend of the barbershop reservation system
(`src/backend/src/controllers/reservationController.js`,
`src/backend/src/models/Reservation.js`, `src/backend/src/app.js`,
`src/backend/src/services/notificationFactory.js`, and the service table of
`src/frontend/src/App.jsx`), followed by theorems settling the claims about
the availability computation, the reservation lifecycle, validation and
notification dispatch.

Strings are modelled as Lean `String`; machine details that the claims do not
touch (SQL types, HTML e-mail bodies, timestamps) are elided.  Query
parameters and optional body fields are `Option String` / `Option Nat`, with
`none` standing for a JavaScript `undefined`; JS truthiness of a string value
(`undefined` and the empty string are falsy) is modelled explicitly.
-/

/-- A stored reservation row (model `Reservation` of
`src/backend/src/models/Reservation.js`).  `price` is in whole dollars (the
DECIMAL column is exercised only with integral values), `duration` in
minutes. -/
structure Reservation where
  id : String
  customerName : String
  customerEmail : String
  customerPhone : String
  barberId : String
  barberName : String
  serviceType : String
  appointmentDate : String
  appointmentTime : String
  duration : Nat
  price : Nat
  status : String
  notes : Option String
deriving Repr, DecidableEq

/-- JS truthiness of an optional string value: `undefined` (here `none`) and
the empty string are falsy, every other string is truthy. -/
def strTruthy : Option String → Bool
  | none => false
  | some s => s != ""

/-- Zero left-padding to two characters, as used by `generateTimeSlots`. -/
def pad2 (n : Nat) : String :=
  let s := Nat.repr n
  if s.length < 2 then "0" ++ s else s

/-- Embeds `ReservationController.generateTimeSlots`: for each hour from 9 up to
(but not including) 18, push `HH:00:00` and `HH:30:00`. -/
def generateTimeSlots : List String :=
  (List.range' 9 9).foldl
    (fun slots hour => slots ++ [pad2 hour ++ ":00:00", pad2 hour ++ ":30:00"]) []

/-- Ascending order on time strings: character-wise lexicographic order on
the underlying character lists. -/
def strAsc (a b : String) : Prop := a.data < b.data

instance (a b : String) : Decidable (strAsc a b) := by
  unfold strAsc; infer_instance

/-- A concrete pending reservation used by the witnesses. -/
def resA : Reservation :=
  { id := "res-1", customerName := "John Doe",
    customerEmail := "john@example.com", customerPhone := "+1234567890",
    barberId := "b1", barberName := "John Smith", serviceType := "haircut",
    appointmentDate := "2025-12-25", appointmentTime := "10:00:00",
    duration := 30, price := 25, status := "pending", notes := none }

/-! ## String helpers for the express-validator checks

All helpers are structural recursions over character lists so that concrete
inputs evaluate inside the kernel. -/

/-- Split a character list on a separator, keeping empty parts (semantics of
`String.prototype.split` / `splitOn` for a one-character separator). -/
def splitChar (sep : Char) : List Char → List (List Char)
  | [] => [[]]
  | c :: cs =>
    let r := splitChar sep cs
    if c = sep then [] :: r
    else
      match r with
      | [] => [[c]]
      | h :: t => (c :: h) :: t

/-- ASCII decimal digit. -/
def isDigitCh (c : Char) : Bool := '0' ≤ c && c ≤ '9'

/-- JS whitespace as exercised here. -/
def isWsCh (c : Char) : Bool := c = ' ' || c = '\t' || c = '\n' || c = '\r'

/-- Embeds `String.prototype.trim`. -/
def trimStr (s : String) : String :=
  ⟨((s.data.dropWhile isWsCh).reverse.dropWhile isWsCh).reverse⟩

/-- Embeds `String.prototype.toLowerCase` restricted to ASCII. -/
def toLowerStr (s : String) : String := ⟨s.data.map Char.toLower⟩

/-- Hour alternative of the `appointmentTime` regular expression of
`app.js`: a single digit 0-9, two digits 00-19, or 20-23. -/
def hourPartOk : List Char → Bool
  | [d] => isDigitCh d
  | [t, d] => (('0' ≤ t && t ≤ '1') && isDigitCh d) ||
      (t = '2' && ('0' ≤ d && d ≤ '3'))
  | _ => false

/-- One `[0-5][0-9]` component of the time pattern. -/
def minSecOk : List Char → Bool
  | [t, d] => ('0' ≤ t && t ≤ '5') && isDigitCh d
  | _ => false

/-- The anchored `appointmentTime` pattern of `app.js`:
hour, colon, `[0-5][0-9]`, colon, `[0-5][0-9]`. -/
def timePatternOk (s : String) : Bool :=
  match splitChar ':' s.data with
  | [h, m, sec] => hourPartOk h && minSecOk m && minSecOk sec
  | _ => false

/-- Hexadecimal digit for the UUID check. -/
def isHexCh (c : Char) : Bool :=
  isDigitCh c || ('a' ≤ c && c ≤ 'f') || ('A' ≤ c && c ≤ 'F')

/-- The `isUUID` check of express-validator: five dash-separated hex groups of lengths
8-4-4-4-12. -/
def isUUIDStr (s : String) : Bool :=
  match splitChar '-' s.data with
  | [a, b, c, d, e] =>
    a.length == 8 && b.length == 4 && c.length == 4 && d.length == 4 &&
      e.length == 12 && (a ++ b ++ c ++ d ++ e).all isHexCh
  | _ => false

/-- Simplification of the `isEmail` check of the validator library (an
external collaborator): exactly one `@`, non-empty local part, non-empty
domain containing a dot, and no spaces. -/
def isEmailStr (s : String) : Bool :=
  match splitChar '@' s.data with
  | [loc, dom] =>
    !loc.isEmpty && !dom.isEmpty && dom.contains '.' && !(s.data.contains ' ')
  | _ => false

/-- Numeric value of a two-digit group. -/
def twoVal (a b : Char) : Nat := (a.toNat - 48) * 10 + (b.toNat - 48)

/-- Simplification of the `isDate` check of the validator library (an
external collaborator): `YYYY-MM-DD` with digits, month 01-12, day 01-31. -/
def isDateStr (s : String) : Bool :=
  match splitChar '-' s.data with
  | [[y1, y2, y3, y4], [m1, m2], [d1, d2]] =>
    ([y1, y2, y3, y4, m1, m2, d1, d2].all isDigitCh) &&
      (decide (1 ≤ twoVal m1 m2) && decide (twoVal m1 m2 ≤ 12)) &&
      (decide (1 ≤ twoVal d1 d2) && decide (twoVal d1 d2 ≤ 31))
  | _ => false

/-! ## Request bodies, validation chain and the model layer -/

/-- Body of `POST /api/reservations`; `none` is an absent (JS `undefined`)
field.  `price` is numeric (whole dollars): the `isDecimal` format check of
the validator library reduces, at this level of modelling, to the field
being present. -/
structure CreateBody where
  customerName : Option String := none
  customerEmail : Option String := none
  customerPhone : Option String := none
  barberId : Option String := none
  barberName : Option String := none
  serviceType : Option String := none
  appointmentDate : Option String := none
  appointmentTime : Option String := none
  duration : Option Nat := none
  price : Option Nat := none
  status : Option String := none
  notes : Option String := none
deriving Repr, DecidableEq

/-- The four service types of the model and of `app.js`. -/
def serviceVals : List String := ["haircut", "shave", "beard-trim", "full-service"]

/-- The four statuses of the model. -/
def statusVals : List String := ["pending", "confirmed", "completed", "cancelled"]

/-- The `reservationValidation` middleware chain of `app.js`: each validator
fails on an absent field. -/
def reservationValidation (b : CreateBody) : Bool :=
  (match b.customerName with
   | some s => s != "" &&
       (decide (2 ≤ (trimStr s).length) && decide ((trimStr s).length ≤ 100))
   | none => false) &&
  (match b.customerEmail with
   | some s => isEmailStr s
   | none => false) &&
  (match b.customerPhone with
   | some s => s != ""
   | none => false) &&
  (match b.barberId with
   | some s => s != "" && isUUIDStr s
   | none => false) &&
  (match b.barberName with
   | some s => s != ""
   | none => false) &&
  (match b.serviceType with
   | some s => serviceVals.contains s
   | none => false) &&
  (match b.appointmentDate with
   | some s => isDateStr s
   | none => false) &&
  (match b.appointmentTime with
   | some s => timePatternOk s
   | none => false) &&
  b.price.isSome

/-- The `.trim()` sanitizers of the validation chain persist into the body
(`customerName`, `customerPhone`, `barberName`); `normalizeEmail` is elided
as it is not exercised by any claim. -/
def sanitizeBody (b : CreateBody) : CreateBody :=
  { b with customerName := b.customerName.map trimStr,
           customerPhone := b.customerPhone.map trimStr,
           barberName := b.barberName.map trimStr }

/-- The field validators of the Sequelize model
(`src/backend/src/models/Reservation.js`). -/
def modelValidate (r : Reservation) : Bool :=
  r.customerName != "" &&
  (decide (2 ≤ r.customerName.length) && decide (r.customerName.length ≤ 100)) &&
  isEmailStr r.customerEmail &&
  r.customerPhone != "" &&
  serviceVals.contains r.serviceType &&
  statusVals.contains r.status

/-- Embeds `Reservation.create(req.body)`: all non-null columns must be present;
`duration` defaults to 30, `status` to `pending`, `id` to a fresh UUID
(passed in as `newId`); the model validators run, a failure raising
(`none`). -/
def modelCreate (b : CreateBody) (newId : String) : Option Reservation := do
  let nm ← b.customerName
  let em ← b.customerEmail
  let ph ← b.customerPhone
  let bid ← b.barberId
  let bn ← b.barberName
  let st ← b.serviceType
  let ad ← b.appointmentDate
  let at1 ← b.appointmentTime
  let pr ← b.price
  let r : Reservation :=
    { id := newId, customerName := nm, customerEmail := em,
      customerPhone := ph, barberId := bid, barberName := bn,
      serviceType := st, appointmentDate := ad, appointmentTime := at1,
      duration := b.duration.getD 30, price := pr,
      status := b.status.getD "pending", notes := b.notes }
  if modelValidate r then some r else none

/-! ## Notification factory (`src/backend/src/services/notificationFactory.js`) -/

/-- Payload handed to `NotificationFactory.send`; the HTML body built by the
controller and `buildEmailTemplate` is pure templating and is elided. -/
structure NotifData where
  recipient : String
  subject : String
deriving Repr, DecidableEq

/-- Environment outcome of the SMTP transporter: the e-mail either goes out
with a message id or the transporter raises, which `EmailNotification.send`
catches. -/
inductive EmailOutcome where
  | sent (messageId : String)
  | failed (err : String)
deriving Repr, DecidableEq

/-- The `{success, messageId|error}` result every channel returns. -/
structure NotifResult where
  success : Bool
  messageId : Option String
  error : Option String
deriving Repr, DecidableEq

/-- Embeds `NotificationFactory.send`: selects the channel by lower-cased key;
the e-mail channel catches transporter failures and reports
`success: false`; SMS and push are simulated successes; an unknown key
raises in `createNotification` and is caught in `send` itself.  In every
case a result is returned, never an exception. -/
def NotificationFactory.send (ty : String) (env : EmailOutcome)
    (_d : NotifData) : NotifResult :=
  match toLowerStr ty with
  | "email" =>
    match env with
    | .sent mid => { success := true, messageId := some mid, error := none }
    | .failed err => { success := false, messageId := none, error := some err }
  | "sms" => { success := true, messageId := none, error := none }
  | "push" => { success := true, messageId := none, error := none }
  | other =>
    { success := false, messageId := none,
      error := some ("Unsupported notification type: " ++ other) }

/-! ## Controller operations -/

/-- Result of `ReservationController.createReservation`: HTTP status,
envelope success flag, created entity, the (logged-only) notification
result, and the store after the operation. -/
structure CreateResult where
  statusCode : Nat
  success : Bool
  data : Option Reservation
  notif : Option NotifResult
  store : List Reservation
deriving Repr, DecidableEq

/-- Embeds `ReservationController.createReservation`: 400 on a validation failure,
500 when the model raises, otherwise insert, dispatch the confirmation
e-mail (result ignored) and respond 201 with the entity. -/
def createReservation (store : List Reservation) (b : CreateBody)
    (newId : String) (env : EmailOutcome) : CreateResult :=
  if !(reservationValidation b) then
    { statusCode := 400, success := false, data := none, notif := none,
      store := store }
  else
    match modelCreate (sanitizeBody b) newId with
    | none =>
      { statusCode := 500, success := false, data := none, notif := none,
        store := store }
    | some r =>
      let n := NotificationFactory.send "email" env
        { recipient := r.customerEmail, subject := "Reservation Confirmed" }
      { statusCode := 201, success := true, data := some r, notif := some n,
        store := store ++ [r] }

/-- Embeds `Reservation.findByPk`. -/
def findByPk (store : List Reservation) (id : String) : Option Reservation :=
  store.find? (fun r => r.id == id)

/-- Result of `ReservationController.cancelReservation`. -/
structure CancelResult where
  statusCode : Nat
  success : Bool
  data : Option Reservation
  notif : Option NotifResult
  store : List Reservation
deriving Repr, DecidableEq

/-- Embeds `ReservationController.cancelReservation`: 404 when the id is unknown,
otherwise set the status to cancelled (whatever it was), dispatch the
cancellation e-mail (result ignored) and respond 200 with the updated
entity. -/
def cancelReservation (store : List Reservation) (id : String)
    (env : EmailOutcome) : CancelResult :=
  match findByPk store id with
  | none =>
    { statusCode := 404, success := false, data := none, notif := none,
      store := store }
  | some r =>
    let n := NotificationFactory.send "email" env
      { recipient := r.customerEmail, subject := "Reservation Cancelled" }
    { statusCode := 200, success := true,
      data := some { r with status := "cancelled" }, notif := some n,
      store := store.map
        (fun x => if x.id == id then { x with status := "cancelled" } else x) }

/-- Body of `PUT /api/reservations/:id`: a partial set of fields (primary
key updates are not exercised by the spec and not modelled). -/
structure UpdateBody where
  customerName : Option String := none
  customerEmail : Option String := none
  customerPhone : Option String := none
  barberId : Option String := none
  barberName : Option String := none
  serviceType : Option String := none
  appointmentDate : Option String := none
  appointmentTime : Option String := none
  duration : Option Nat := none
  price : Option Nat := none
  status : Option String := none
  notes : Option String := none
deriving Repr, DecidableEq

/-- Embeds `reservation.update(req.body)`: each supplied field overwrites the
stored one, absent fields are kept. -/
def applyUpdate (r : Reservation) (b : UpdateBody) : Reservation :=
  { id := r.id,
    customerName := b.customerName.getD r.customerName,
    customerEmail := b.customerEmail.getD r.customerEmail,
    customerPhone := b.customerPhone.getD r.customerPhone,
    barberId := b.barberId.getD r.barberId,
    barberName := b.barberName.getD r.barberName,
    serviceType := b.serviceType.getD r.serviceType,
    appointmentDate := b.appointmentDate.getD r.appointmentDate,
    appointmentTime := b.appointmentTime.getD r.appointmentTime,
    duration := b.duration.getD r.duration,
    price := b.price.getD r.price,
    status := b.status.getD r.status,
    notes := match b.notes with | some n => some n | none => r.notes }

/-- Result of `ReservationController.updateReservation`. -/
structure UpdateResult where
  statusCode : Nat
  success : Bool
  data : Option Reservation
  store : List Reservation
deriving Repr, DecidableEq

/-- Embeds `ReservationController.updateReservation`: 404 when the id is unknown;
otherwise overwrite the supplied fields; the model validators run on the
updated row, a failure raising and surfacing as 500 with the store
unchanged. -/
def updateReservation (store : List Reservation) (id : String)
    (b : UpdateBody) : UpdateResult :=
  match findByPk store id with
  | none => { statusCode := 404, success := false, data := none, store := store }
  | some r =>
    let r2 := applyUpdate r b
    if modelValidate r2 then
      { statusCode := 200, success := true, data := some r2,
        store := store.map (fun x => if x.id == id then applyUpdate x b else x) }
    else
      { statusCode := 500, success := false, data := none, store := store }

/-! ## List operation (`ReservationController.getAllReservations`) -/

/-- The `where` clause built from the optional `status` and `date` query
parameters: a falsy parameter contributes no condition. -/
def matchesListFilter (qStatus qDate : Option String) (r : Reservation) : Bool :=
  (if strTruthy qStatus then r.status == qStatus.getD "" else true) &&
  (if strTruthy qDate then r.appointmentDate == qDate.getD "" else true)

/-- Strict character-wise lexicographic order, as a Bool. -/
def listCharLtB : List Char → List Char → Bool
  | [], [] => false
  | [], _ :: _ => true
  | _ :: _, [] => false
  | a :: as, b :: bs => decide (a < b) || (a == b && listCharLtB as bs)

/-- The clause `ORDER BY appointmentDate DESC, appointmentTime DESC`: `a`
sorts no later than `b` when its date is strictly greater, or the dates are
equal and its time is no smaller. -/
def resOrderBefore (a b : Reservation) : Bool :=
  listCharLtB b.appointmentDate.data a.appointmentDate.data ||
  (a.appointmentDate == b.appointmentDate &&
    !(listCharLtB a.appointmentTime.data b.appointmentTime.data))

/-- Insertion step of the sort applied by the persistence layer. -/
def insertRes (a : Reservation) : List Reservation → List Reservation
  | [] => [a]
  | b :: l => if resOrderBefore a b then a :: b :: l else b :: insertRes a l

/-- Insertion sort realising the `order` option of the `findAll`. -/
def sortRes : List Reservation → List Reservation
  | [] => []
  | a :: l => insertRes a (sortRes l)

/-- Response envelope of `GET /api/reservations`. -/
structure ListResult where
  statusCode : Nat
  success : Bool
  count : Nat
  data : List Reservation
deriving Repr, DecidableEq

/-- Embeds `ReservationController.getAllReservations`: filter by the truthy query
parameters, order by date then time descending, respond 200 with count and
list.  No branch produces any other status code. -/
def getAllReservations (store : List Reservation)
    (qStatus qDate : Option String) : ListResult :=
  let reservations := sortRes (store.filter (matchesListFilter qStatus qDate))
  { statusCode := 200, success := true, count := reservations.length,
    data := reservations }

/-! ## The client-side service table (`src/frontend/src/App.jsx`) -/

/-- One entry of the `services` array of the frontend. -/
structure Service where
  value : String
  label : String
  price : Nat
  duration : Nat
deriving Repr, DecidableEq

/-- The fixed service table of the frontend (the only place the price and
duration of a service type are derived). -/
def services : List Service :=
  [{ value := "haircut", label := "Haircut", price := 25, duration := 30 },
   { value := "shave", label := "Shave", price := 15, duration := 20 },
   { value := "beard-trim", label := "Beard Trim", price := 20, duration := 25 },
   { value := "full-service", label := "Full Service", price := 45, duration := 60 }]

/-- The valid example body of the spec (section 8) with the remaining
required fields filled in as in the test suite. -/
def johnBody : CreateBody :=
  { customerName := some "John Doe",
    customerEmail := some "john@example.com",
    customerPhone := some "+1234567890",
    barberId := some "123e4567-e89b-12d3-a456-426614174000",
    barberName := some "John Smith",
    serviceType := some "haircut",
    appointmentDate := some "2025-12-25",
    appointmentTime := some "10:00:00",
    duration := some 30,
    price := some 25 }

/-- Inserting keeps the elements (helper for the list ordering). -/
theorem insertRes_perm (a : Reservation) (l : List Reservation) :
    List.Perm (insertRes a l) (a :: l) := by
  induction l with
  | nil => exact List.Perm.refl _
  | cons b t ih =>
    simp only [insertRes]
    split
    · exact List.Perm.refl _
    · exact (List.Perm.cons b ih).trans (List.Perm.swap a b t)

/-- The sort of the list endpoint is a permutation (helper). -/
theorem sortRes_perm (l : List Reservation) : List.Perm (sortRes l) l := by
  induction l with
  | nil => exact List.Perm.refl _
  | cons a t ih =>
    exact (insertRes_perm a (sortRes t)).trans (List.Perm.cons a ih)

/-- C2: the generated slot grid is exactly the 18 ascending half-hour times
from 09:00:00 to 17:30:00, zero-padded `HH:MM:SS`. -/
theorem generateTimeSlots_spec :
    generateTimeSlots =
      ["09:00:00", "09:30:00", "10:00:00", "10:30:00", "11:00:00", "11:30:00",
       "12:00:00", "12:30:00", "13:00:00", "13:30:00", "14:00:00", "14:30:00",
       "15:00:00", "15:30:00", "16:00:00", "16:30:00", "17:00:00", "17:30:00"] ∧
    generateTimeSlots.length = 18 ∧
    List.Sorted strAsc generateTimeSlots := by
  refine ⟨by decide, by decide, by decide⟩

/-- C3: cancelling an unknown id responds 404 with `success: false` and
leaves the store untouched; cancelling any existing reservation — whatever
its prior status — responds 200, dispatches a notification, and returns the
entity with status cancelled. -/
theorem cancelReservation_spec (store : List Reservation) (id : String)
    (env : EmailOutcome) :
    (findByPk store id = none →
      cancelReservation store id env =
        { statusCode := 404, success := false, data := none, notif := none,
          store := store }) ∧
    (∀ r, findByPk store id = some r →
      (cancelReservation store id env).statusCode = 200 ∧
      (cancelReservation store id env).success = true ∧
      (cancelReservation store id env).notif.isSome = true ∧
      (cancelReservation store id env).data = some { r with status := "cancelled" } ∧
      ∃ r2, (cancelReservation store id env).data = some r2 ∧
        r2.status = "cancelled") := by
  constructor
  · intro h
    simp [cancelReservation, h]
  · intro r h
    refine ⟨?_, ?_, ?_, ?_, ⟨{ r with status := "cancelled" }, ?_, rfl⟩⟩ <;>
      simp [cancelReservation, h]

/-- Witness for the cancel theorem: both branches at concrete inputs. -/
theorem cancelReservation_spec_witness :
    cancelReservation [] "missing" (EmailOutcome.sent "m1") =
      { statusCode := 404, success := false, data := none, notif := none,
        store := [] } ∧
    (cancelReservation [resA] "res-1" (EmailOutcome.sent "m1")).statusCode = 200 :=
  ⟨(cancelReservation_spec [] "missing" (EmailOutcome.sent "m1")).1 rfl,
   ((cancelReservation_spec [resA] "res-1" (EmailOutcome.sent "m1")).2 resA rfl).1⟩

/-- C9: cancelling changes only the status field of the targeted
reservation; every other field is preserved, every reservation with a
different id is kept as it was, nothing else enters the store, and the
store keeps its length. -/
theorem cancel_modifies_only_status (store : List Reservation) (id : String)
    (env : EmailOutcome) (r : Reservation) (h : findByPk store id = some r) :
    ((cancelReservation store id env).data = some { r with status := "cancelled" }) ∧
    (∀ r2, (cancelReservation store id env).data = some r2 →
      r2.id = r.id ∧ r2.customerName = r.customerName ∧
      r2.customerEmail = r.customerEmail ∧ r2.customerPhone = r.customerPhone ∧
      r2.barberId = r.barberId ∧ r2.barberName = r.barberName ∧
      r2.serviceType = r.serviceType ∧ r2.appointmentDate = r.appointmentDate ∧
      r2.appointmentTime = r.appointmentTime ∧ r2.duration = r.duration ∧
      r2.price = r.price ∧ r2.notes = r.notes ∧ r2.status = "cancelled") ∧
    (∀ x ∈ store, x.id ≠ id → x ∈ (cancelReservation store id env).store) ∧
    (∀ y ∈ (cancelReservation store id env).store,
      y ∈ store ∨ ∃ x ∈ store, x.id = id ∧ y = { x with status := "cancelled" }) ∧
    (cancelReservation store id env).store.length = store.length := by
  refine ⟨by simp [cancelReservation, h], ?_, ?_, ?_, by simp [cancelReservation, h]⟩
  · intro r2 h2
    rw [show (cancelReservation store id env).data = some { r with status := "cancelled" }
      from by simp [cancelReservation, h]] at h2
    cases h2
    simp
  · intro x hx hne
    simp only [cancelReservation, h, List.mem_map]
    exact ⟨x, hx, by simp [hne]⟩
  · intro y hy
    simp only [cancelReservation, h, List.mem_map] at hy
    obtain ⟨x, hx, hxy⟩ := hy
    by_cases hid : x.id = id
    · right
      refine ⟨x, hx, hid, ?_⟩
      rw [← hxy]
      simp [hid]
    · left
      rw [← hxy]
      simp [hid]
      exact hx

/-- Witness for the frame theorem at a concrete one-element store. -/
theorem cancel_modifies_only_status_witness :
    (cancelReservation [resA] "res-1" (EmailOutcome.sent "m1")).data =
      some { resA with status := "cancelled" } :=
  (cancel_modifies_only_status [resA] "res-1" (EmailOutcome.sent "m1") resA rfl).1

/-- C4: creating a reservation with the valid example data of the spec
responds 201 and the created entity has status pending and price 25. -/
theorem createReservation_john_doe_example :
    (createReservation [] johnBody "7c9e6679-7425-40de-944b-e07fc1f90ae7"
      (EmailOutcome.sent "mid-1")).statusCode = 201 ∧
    ((createReservation [] johnBody "7c9e6679-7425-40de-944b-e07fc1f90ae7"
      (EmailOutcome.sent "mid-1")).data.map (·.status)) = some "pending" ∧
    ((createReservation [] johnBody "7c9e6679-7425-40de-944b-e07fc1f90ae7"
      (EmailOutcome.sent "mid-1")).data.map (·.price)) = some 25 := by
  refine ⟨by decide, by decide, by decide⟩

/-- The e-mail channel result of a failed transporter (helper). -/
theorem send_email_failed (err : String) (d : NotifData) :
    NotificationFactory.send "email" (EmailOutcome.failed err) d =
      { success := false, messageId := none, error := some err } := rfl

/-- The e-mail channel result of a successful transporter (helper). -/
theorem send_email_sent (mid : String) (d : NotifData) :
    NotificationFactory.send "email" (EmailOutcome.sent mid) d =
      { success := true, messageId := some mid, error := none } := rfl

/-- C6: a failed notification dispatch never changes the outcome of a create
or cancel: status code, success flag, entity and store are the same as with
a successful dispatch (only the logged notification result differs, and it
is never surfaced as a failure of the operation); a creation that succeeds
still responds 201 with its entity appended, a cancel of an existing id
still responds 200. -/
theorem notification_failure_does_not_change_outcome
    (store : List Reservation) (b : CreateBody) (newId : String)
    (id mid err : String) :
    ((createReservation store b newId (EmailOutcome.failed err)).statusCode =
       (createReservation store b newId (EmailOutcome.sent mid)).statusCode ∧
     (createReservation store b newId (EmailOutcome.failed err)).success =
       (createReservation store b newId (EmailOutcome.sent mid)).success ∧
     (createReservation store b newId (EmailOutcome.failed err)).data =
       (createReservation store b newId (EmailOutcome.sent mid)).data ∧
     (createReservation store b newId (EmailOutcome.failed err)).store =
       (createReservation store b newId (EmailOutcome.sent mid)).store ∧
     (∀ r, (createReservation store b newId (EmailOutcome.sent mid)).data = some r →
       (createReservation store b newId (EmailOutcome.failed err)).statusCode = 201 ∧
       (createReservation store b newId (EmailOutcome.failed err)).store =
         store ++ [r])) ∧
    ((cancelReservation store id (EmailOutcome.failed err)).statusCode =
       (cancelReservation store id (EmailOutcome.sent mid)).statusCode ∧
     (cancelReservation store id (EmailOutcome.failed err)).success =
       (cancelReservation store id (EmailOutcome.sent mid)).success ∧
     (cancelReservation store id (EmailOutcome.failed err)).data =
       (cancelReservation store id (EmailOutcome.sent mid)).data ∧
     (cancelReservation store id (EmailOutcome.failed err)).store =
       (cancelReservation store id (EmailOutcome.sent mid)).store ∧
     (∀ r, findByPk store id = some r →
       (cancelReservation store id (EmailOutcome.failed err)).statusCode = 200)) := by
  constructor
  · cases hval : reservationValidation b
    · simp [createReservation, hval]
    · cases hmc : modelCreate (sanitizeBody b) newId with
      | none => simp [createReservation, hval, hmc]
      | some r =>
        simp [createReservation, hval, hmc, send_email_failed, send_email_sent]
  · cases hf : findByPk store id with
    | none => simp [cancelReservation, hf]
    | some r =>
      simp [cancelReservation, hf, send_email_failed, send_email_sent]

/-- Witness for the notification theorem: the inner implications discharged
at a concrete store and body. -/
theorem notification_failure_does_not_change_outcome_witness :
    (createReservation [] johnBody "7c9e6679-7425-40de-944b-e07fc1f90ae7"
      (EmailOutcome.failed "smtp down")).statusCode = 201 ∧
    (cancelReservation [resA] "res-1" (EmailOutcome.failed "smtp down")).statusCode
      = 200 :=
  ⟨((notification_failure_does_not_change_outcome []
      johnBody "7c9e6679-7425-40de-944b-e07fc1f90ae7" "res-1" "m1" "smtp down").1.2.2.2.2
      (modelCreate (sanitizeBody johnBody) "7c9e6679-7425-40de-944b-e07fc1f90ae7"
        |>.getD resA) (by decide)).1,
   ((notification_failure_does_not_change_outcome [resA]
      johnBody "7c9e6679-7425-40de-944b-e07fc1f90ae7" "res-1" "m1" "smtp down").2.2.2.2.2
      resA rfl)⟩

/-- C10 counterexample: with the status parameter present but empty
(`?status=`), the list operation ignores the filter (JS truthiness) and
returns every stored reservation, not only those whose status equals the
empty string. -/
theorem list_empty_status_value_counterexample :
    (getAllReservations [resA] (some "") none).data = [resA] ∧
    resA.status ≠ "" ∧
    (getAllReservations [resA] (some "") none).data ≠
      List.filter (fun r => r.status == "") [resA] := by
  refine ⟨by decide, by decide, by decide⟩

/-- C10 as amended: the status filter is never validated — every request is
answered 200, whatever the parameter values; for every non-empty status
string, including values outside the four known statuses, the data is
exactly the stored reservations with that status (possibly none); and a
present-but-empty status value, like an absent one, applies no filter and
returns every stored reservation. -/
theorem list_status_filter_unvalidated (store : List Reservation) :
    (∀ qs qd : Option String, (getAllReservations store qs qd).statusCode = 200 ∧
      (getAllReservations store qs qd).success = true) ∧
    (∀ q : String, q ≠ "" →
      List.Perm (getAllReservations store (some q) none).data
        (store.filter (fun r => r.status == q)) ∧
      (getAllReservations store (some q) none).count =
        (store.filter (fun r => r.status == q)).length ∧
      (∀ r ∈ (getAllReservations store (some q) none).data, r.status = q)) ∧
    (List.Perm (getAllReservations store (some "") none).data store ∧
      (getAllReservations store (some "") none).count = store.length ∧
      List.Perm (getAllReservations store none none).data store) := by
  refine ⟨fun qs qd => ⟨rfl, rfl⟩, ?_, ?_⟩
  · intro q hq
    have hfilter : store.filter (matchesListFilter (some q) none) =
        store.filter (fun r => r.status == q) := by
      apply List.filter_congr
      intro r _
      simp [matchesListFilter, strTruthy, hq]
    have hperm : List.Perm (getAllReservations store (some q) none).data
        (store.filter (fun r => r.status == q)) := by
      simp only [getAllReservations, hfilter]
      exact sortRes_perm _
    refine ⟨hperm, ?_, ?_⟩
    · simp only [getAllReservations, hfilter]
      exact (sortRes_perm _).length_eq
    · intro r hr
      have hmem := hperm.mem_iff.mp hr
      have := List.mem_filter.mp hmem
      simpa using this.2
  · have hempty : store.filter (matchesListFilter (some "") none) = store := by
      have h1 : store.filter (matchesListFilter (some "") none) =
          store.filter (fun _ => true) := by
        apply List.filter_congr
        intro r _
        simp [matchesListFilter, strTruthy]
      rw [h1, List.filter_true]
    have hnone : store.filter (matchesListFilter none none) = store := by
      have h1 : store.filter (matchesListFilter none none) =
          store.filter (fun _ => true) := by
        apply List.filter_congr
        intro r _
        simp [matchesListFilter, strTruthy]
      rw [h1, List.filter_true]
    refine ⟨?_, ?_, ?_⟩
    · simp only [getAllReservations, hempty]
      exact sortRes_perm _
    · simp only [getAllReservations, hempty]
      exact (sortRes_perm _).length_eq
    · simp only [getAllReservations, hnone]
      exact sortRes_perm _

/-- Witness for the list-filter theorem: a pending reservation is invisible
under an unknown status value, the envelope is still 200, and the empty
value returns the whole store. -/
theorem list_status_filter_unvalidated_witness :
    (getAllReservations [resA] (some "nonsense") none).statusCode = 200 ∧
    List.Perm (getAllReservations [resA] (some "nonsense") none).data
      (List.filter (fun r => r.status == "nonsense") [resA]) ∧
    List.Perm (getAllReservations [resA] (some "") none).data [resA] :=
  ⟨((list_status_filter_unvalidated [resA]).1 (some "nonsense") none).1,
   ((list_status_filter_unvalidated [resA]).2.1 "nonsense" (by decide)).1,
   (list_status_filter_unvalidated [resA]).2.2.1⟩

/-- Fields of a successfully created row (helper): the price is exactly the
caller-supplied one, duration defaults to 30, status to pending, the id is
the fresh one. -/
theorem modelCreate_fields (b : CreateBody) (nid : String) (r : Reservation)
    (h : modelCreate b nid = some r) :
    b.price = some r.price ∧ r.duration = b.duration.getD 30 ∧
    r.status = b.status.getD "pending" ∧ r.id = nid := by
  obtain ⟨nm, em, ph, bid, bn, st, ad, at1, du, pr, stt, nts⟩ := b
  cases nm with
  | none => simp [modelCreate] at h
  | some nm =>
  cases em with
  | none => simp [modelCreate] at h
  | some em =>
  cases ph with
  | none => simp [modelCreate] at h
  | some ph =>
  cases bid with
  | none => simp [modelCreate] at h
  | some bid =>
  cases bn with
  | none => simp [modelCreate] at h
  | some bn =>
  cases st with
  | none => simp [modelCreate] at h
  | some st =>
  cases ad with
  | none => simp [modelCreate] at h
  | some ad =>
  cases at1 with
  | none => simp [modelCreate] at h
  | some at1 =>
  cases pr with
  | none => simp [modelCreate] at h
  | some pr =>
  simp only [modelCreate, Option.bind_eq_bind', Option.some_bind'] at h
  split at h
  · injection h with h2
    subst h2
    simp
  · cases h

/-- C5 counterexample: updating the haircut reservation to serviceType
shave, with no price or duration supplied, keeps price 25 and duration 30;
the fixed service table prices shave at 15 for 20 minutes.  The server never
re-derives them. -/
theorem update_serviceType_does_not_rederive_price :
    ((updateReservation [resA] "res-1"
        { serviceType := some "shave" }).statusCode = 200) ∧
    ((updateReservation [resA] "res-1"
        { serviceType := some "shave" }).data.map (·.serviceType) = some "shave") ∧
    ((updateReservation [resA] "res-1"
        { serviceType := some "shave" }).data.map (·.price) = some 25) ∧
    ((updateReservation [resA] "res-1"
        { serviceType := some "shave" }).data.map (·.duration) = some 30) ∧
    ((services.find? (fun s => s.value == "shave")).map (·.price) = some 15) ∧
    ((services.find? (fun s => s.value == "shave")).map (·.duration) = some 20) ∧
    (25 ≠ 15 ∧ 30 ≠ 20) := by
  refine ⟨by decide, by decide, by decide, by decide, by decide, by decide,
    by decide, by decide⟩

/-- C5 as amended: the server treats price and duration as caller-supplied.
An update that changes serviceType without supplying them leaves both
unchanged; creation requires a caller-supplied price (validation fails
without one) and stores exactly the supplied price, with duration
defaulting to 30. -/
theorem price_duration_caller_supplied :
    (∀ (store : List Reservation) (id : String) (b : UpdateBody)
        (r : Reservation),
      findByPk store id = some r → b.price = none → b.duration = none →
      ∀ r2, (updateReservation store id b).data = some r2 →
        r2.price = r.price ∧ r2.duration = r.duration) ∧
    (∀ b : CreateBody, reservationValidation b = true → b.price.isSome = true) ∧
    (∀ (store : List Reservation) (b : CreateBody) (nid : String)
        (env : EmailOutcome) (r : Reservation),
      (createReservation store b nid env).data = some r →
      b.price = some r.price ∧ r.duration = b.duration.getD 30) := by
  refine ⟨?_, ?_, ?_⟩
  · intro store id b r hfind hp hd r2 h2
    cases hval : modelValidate (applyUpdate r b) with
    | false =>
      simp [updateReservation, hfind, hval] at h2
    | true =>
      simp only [updateReservation, hfind, hval, if_true] at h2
      injection h2 with h3
      subst h3
      simp [applyUpdate, hp, hd]
  · intro b h
    rw [reservationValidation, Bool.and_eq_true] at h
    exact h.2
  · intro store b nid env r h
    cases hval : reservationValidation b with
    | false => simp [createReservation, hval] at h
    | true =>
      cases hmc : modelCreate (sanitizeBody b) nid with
      | none => simp [createReservation, hval, hmc] at h
      | some r0 =>
        simp only [createReservation, hval, Bool.not_true, Bool.false_eq_true,
          if_false, hmc] at h
        injection h with h3
        have hf := modelCreate_fields (sanitizeBody b) nid r0 hmc
        rw [← h3]
        exact ⟨hf.1, hf.2.1⟩

/-- Witness for the amended price/duration theorem: a serviceType-only
update keeps the stored price and duration. -/
theorem price_duration_caller_supplied_witness :
    ({ resA with serviceType := "full-service" } : Reservation).price = resA.price ∧
    ({ resA with serviceType := "full-service" } : Reservation).duration =
      resA.duration :=
  price_duration_caller_supplied.1 [resA] "res-1"
    { serviceType := some "full-service" } resA rfl rfl rfl
    { resA with serviceType := "full-service" } (by decide)
